import Mathlib

/-!
Formal model of the MediMind medical-report analyzer backend.

The development shallowly embeds the two Python modules of the repository:
`backend/utils.py` (OCR text extraction, AI analysis, file-processing
pipeline) and `backend/app.py` (the Flask HTTP handlers).  External
collaborators — the OCR engine, the Gemini generation service, Firebase
auth/storage/Firestore, `secure_filename`, `uuid` — are modelled as
parameters or as pre-supplied results (`Except`/`Option` values), and the
repository's own sequential orchestration logic is translated function by
function.  Strings are Lean `String`s; the Python string primitives used by
the source (`strip`, `lower`, slicing, `in`) are re-implemented over the
underlying character lists so that every definition evaluates inside the
kernel.
-/

/-! Python string primitives, via character lists -/

/-- Python `s.strip()`: remove leading and trailing whitespace. -/
def strip (s : String) : String :=
  ⟨((s.data.dropWhile Char.isWhitespace).reverse.dropWhile Char.isWhitespace).reverse⟩

/-- Python `s.lower()`. -/
def lower (s : String) : String := ⟨s.data.map Char.toLower⟩

/-- Python `len(s)` (number of code points). -/
def strLen (s : String) : Nat := s.data.length

/-- Python `s[:n]` (first `n` code points). -/
def strTake (s : String) (n : Nat) : String := ⟨s.data.take n⟩

/-- Python `c in s` for a single character. -/
def hasChar (s : String) (c : Char) : Bool := s.data.contains c

def startsWithList : List Char → List Char → Bool
  | [], _ => true
  | _ :: _, [] => false
  | p :: ps, c :: cs => p == c && startsWithList ps cs

def substrOf (pat : List Char) : List Char → Bool
  | [] => pat.isEmpty
  | c :: cs => startsWithList pat (c :: cs) || substrOf pat cs

/-- Python `pat in s` (substring containment). -/
def hasSub (s pat : String) : Bool := substrOf pat.data s.data

/-- Python `s.rsplit(".", 1)[1]`: the part after the last dot (meaningful
when `hasChar s '.'`). -/
def afterLastDot (s : String) : String :=
  ⟨(s.data.reverse.takeWhile (fun c => c != '.')).reverse⟩

/-! Embedding of backend/utils.py -/

/-- Model of an uploaded file, represented by what the external OCR stack
returns for it: `pdfResult` is the outcome of `convert_from_path` followed
by per-page `pytesseract.image_to_string` (a list of raw page texts, or the
raised error's message), and `imageResult` is the outcome of `Image.open`
followed by `pytesseract.image_to_string` on the whole file. -/
structure UploadedFile where
  pdfResult : Except String (List String)
  imageResult : Except String String

/-- Embedding of `extract_text_from_image` (utils.py:23): OCR the image and return the
stripped text; any failure is re-raised wrapped. -/
def extract_text_from_image (imageResult : Except String String) : Except String String :=
  match imageResult with
  | .ok text => .ok (strip text)
  | .error e => .error ("Failed to extract text from image: " ++ e)

/-- The section built for one page in `extract_text_from_pdf` (utils.py:66):
`--- Page i+1 ---`, a newline, and the stripped page text (`p.1` is the
0-indexed page number, `p.2` the raw OCR text). -/
def pdfSection (p : Nat × String) : String :=
  "--- Page " ++ toString (p.1 + 1) ++ " ---\n" ++ strip p.2

/-- The guard of the page loop (utils.py:65): keep a page iff its stripped
text is non-empty (Python truthiness of `page_text.strip()`). -/
def pdfKeep (p : Nat × String) : Bool := strip p.2 != ""

/-- One iteration of the page loop of `extract_text_from_pdf`
(utils.py:62-66): append the page's section to `all_text` when the stripped
text is non-empty. -/
def pdfStep (all_text : List String) (p : Nat × String) : List String :=
  if pdfKeep p then all_text ++ [pdfSection p] else all_text

/-- The page loop of `extract_text_from_pdf` (utils.py:61-66), folding
`pdfStep` over the enumerated pages starting from the empty `all_text`. -/
def pdf_page_sections (images : List String) : List String :=
  images.enum.foldl pdfStep []

/-- Embedding of `extract_text_from_pdf` (utils.py:44): convert the PDF to page images,
OCR each page, join the non-empty sections with a blank line; any
conversion/OCR failure is re-raised wrapped. -/
def extract_text_from_pdf (pdfResult : Except String (List String)) : Except String String :=
  match pdfResult with
  | .ok images => .ok (String.intercalate "\n\n" (pdf_page_sections images))
  | .error e => .error ("Failed to extract text from PDF: " ++ e)

def insufficient_text_msg : String :=
  "Unable to analyze: insufficient text extracted from the document."

def no_response_msg : String :=
  "AI analysis could not be generated. Please try again or consult your healthcare provider."

def quota_msg : String :=
  "Service temporarily unavailable due to high demand. Please try again in a few moments."

def api_config_msg : String :=
  "API configuration error. Please contact support."

def too_large_msg : String :=
  "Document is too large to analyze. Please try a shorter document or split it into sections."

def MAX_CHARS : Nat := 15000

/-- The `user_prompt` f-string of `analyze_medical_text_with_ai`
(utils.py:104-115), as a function of the (possibly truncated) text. -/
def user_prompt (extracted_text : String) : String :=
  "Analyze the following medical text and provide a clear, patient-friendly explanation that includes:\n\n1. **Document Type**: Identify if this is a lab report, prescription, radiology report, etc.\n2. **Key Findings**: List the main test results, medications, or findings\n3. **Normal vs Abnormal**: Highlight any values that are outside normal ranges (if applicable)\n4. **Simple Explanation**: Explain what these results mean in simple, non-technical language\n5. **Recommendations**: Suggest next steps (e.g., \"discuss with your doctor\", \"this appears normal\")\n\nMedical Text:\n"
  ++ extracted_text
  ++ "\n\nRemember to include the important disclaimer at the end of your analysis."

/-- The `except` clause of `analyze_medical_text_with_ai` (utils.py:133-143):
substring classification of the lowered error message. -/
def classify_ai_error (e : String) : Except String String :=
  let error_msg := lower e
  if hasSub error_msg "quota" || hasSub error_msg "rate" then
    .ok quota_msg
  else if hasSub error_msg "invalid" && hasSub error_msg "api" then
    .ok api_config_msg
  else if hasSub error_msg "token" || hasSub error_msg "length" then
    .ok too_large_msg
  else
    .error ("Failed to analyze medical text with AI: " ++ e)

/-- Handling of the generation-service outcome in
`analyze_medical_text_with_ai` (utils.py:128-143): a non-empty `response.text`
is returned as is, an empty/absent one becomes the fixed fallback message,
and a raised error is classified by `classify_ai_error`. -/
def handle_ai_response : Except String String → Except String String
  | .ok t => if t != "" then .ok t else .ok no_response_msg
  | .error e => classify_ai_error e

/-- Embedding of `analyze_medical_text_with_ai` (utils.py:73).  The external
`client.models.generate_content` call is the parameter `service`, applied to
the user prompt (the system instruction, temperature and output cap are
fixed configuration of that call); `.ok` is the `response.text` value and
`.error` a raised exception's message. -/
def analyze_medical_text_with_ai (service : String → Except String String)
    (extracted_text : String) : Except String String :=
  if extracted_text = "" ∨ strLen (strip extracted_text) < 10 then
    .ok insufficient_text_msg
  else
    let sent :=
      if strLen extracted_text > MAX_CHARS then
        strTake extracted_text MAX_CHARS ++ "\n...[Text truncated due to length]"
      else extracted_text
    handle_ai_response (service (user_prompt sent))

def no_readable_text_msg : String :=
  "No readable text found in the document. Please ensure the image is clear and contains text."

/-- The extension dispatch of `process_uploaded_file` (utils.py:162-167). -/
def extract_for_extension (f : UploadedFile) (file_extension : String) : Except String String :=
  if lower file_extension = "pdf" then
    extract_text_from_pdf f.pdfResult
  else if (["png", "jpg", "jpeg", "gif"] : List String).contains (lower file_extension) then
    extract_text_from_image f.imageResult
  else
    .error ("Unsupported file type: " ++ file_extension)

/-- Embedding of `process_uploaded_file` (utils.py:146): extract by extension,
short-circuit when fewer than 5 stripped characters were found, otherwise
analyze; everything raised inside is re-raised wrapped. -/
def process_uploaded_file (f : UploadedFile) (service : String → Except String String)
    (file_extension : String) : Except String (String × String) :=
  let result : Except String (String × String) :=
    match extract_for_extension f file_extension with
    | .error e => .error e
    | .ok extracted_text =>
      if extracted_text = "" ∨ strLen (strip extracted_text) < 5 then
        .ok ("", no_readable_text_msg)
      else
        match analyze_medical_text_with_ai service extracted_text with
        | .error e => .error e
        | .ok ai_analysis => .ok (extracted_text, ai_analysis)
  match result with
  | .ok r => .ok r
  | .error e => .error ("Failed to process file: " ++ e)

/-! Embedding of backend/app.py -/

def ALLOWED_EXTENSIONS : List String := ["pdf", "png", "jpg", "jpeg", "gif"]

/-- Embedding of `allowed_file` (app.py:120): the name contains a dot and the lowered
part after the last dot is an allowed extension. -/
def allowed_file (filename : String) : Bool :=
  hasChar filename '.' && ALLOWED_EXTENSIONS.contains (lower (afterLastDot filename))

/-- One Firestore report document (the `report_data` dict of app.py:286-293). -/
structure Report where
  filename : String
  blob_path : String
  extracted_text : String
  ai_analysis : String
  uploaded_at : String
  user_id : String
deriving DecidableEq

/-- Model of the Firebase Storage bucket client: whether
`blob.upload_from_filename` succeeds, and what `blob.generate_signed_url`
returns for a path. -/
structure Storage where
  uploadOk : Bool
  sign : String → String

/-- Model of the Firestore client: the outcome of `doc_ref.set` plus the
store-assigned document id, the result of the ordered/limited reports query
(document id paired with data), and single-document lookup. -/
structure DB where
  saveResult : Except String String
  listResult : String → Int → List (String × Report)
  getResult : String → String → Option Report

/-- The process-wide `bucket` and `db` handles of app.py:68-75; `none`
models the sentinel `None` set when Firebase initialization fails. -/
structure Env where
  bucket : Option Storage
  db : Option DB

/-- Embedding of `upload_to_firebase_storage` (app.py:125): empty string when the bucket
is unavailable, the per-user blob path on success, and empty string (after
printing a warning) when the upload raises. -/
def upload_to_firebase_storage (bucket : Option Storage)
    (local_file_path filename user_id : String) : String :=
  match bucket with
  | none => ""
  | some st =>
    if st.uploadOk then "medical_reports/" ++ user_id ++ "/" ++ filename else ""

/-- Embedding of `generate_signed_url` (app.py:154): empty string when the bucket is
unavailable or the blob path is empty, otherwise the signed URL. -/
def generate_signed_url (bucket : Option Storage) (blob_path : String) : String :=
  match bucket with
  | none => ""
  | some st => if blob_path = "" then "" else st.sign blob_path

/-- Embedding of `save_report_to_firestore` (app.py:184): raises (wrapped) when the
database handle is unavailable or `doc_ref.set` fails, otherwise returns the
assigned document id. -/
def save_report_to_firestore (db : Option DB) (user_id : String)
    (report_data : Report) : Except String String :=
  match db with
  | none => .error "Failed to save report to database: Database not available"
  | some d =>
    match d.saveResult with
    | .ok docId => .ok docId
    | .error e => .error ("Failed to save report to database: " ++ e)

/-- A report dict as returned by the read endpoints: the stored data plus
`report_id` and, when `blob_path` is non-empty, a freshly generated
`file_url` (app.py:354-361, 414-419). -/
structure EnrichedReport where
  report : Report
  report_id : String
  file_url : Option String

def enrich_report (env : Env) (doc : String × Report) : EnrichedReport :=
  { report := doc.2
    report_id := doc.1
    file_url :=
      if doc.2.blob_path != "" then some (generate_signed_url env.bucket doc.2.blob_path)
      else none }

/-- An upload request as the handler observes it: the outcome of
`get_authenticated_user` (`.ok uid` or the raised message), whether `'file'`
is in `request.files`, the submitted filename (`""` models a missing/empty
name), and the file's content as seen by the OCR stack. -/
structure UploadReq where
  auth : Except String String
  filePresent : Bool
  filename : String
  content : UploadedFile

/-- Observable outcome of the `/upload` handler: HTTP status, the JSON body
fields relevant to the spec, the computed `blob_path`, and the temp-file
facts (whether `file.save` ran, and whether the temp file still exists when
the handler returns). -/
structure UploadOutcome where
  status : Nat
  error : Option String
  filename : Option String
  extracted_text : Option String
  ai_analysis : Option String
  report_id : Option String
  blob_path : String
  tempCreated : Bool
  tempExists : Bool
deriving DecidableEq

/-- An error return of the `/upload` handler (no success body fields). -/
def uploadErr (status : Nat) (msg : String) (created remaining : Bool) : UploadOutcome :=
  ⟨status, some msg, none, none, none, none, "", created, remaining⟩

/-- Embedding of `upload_file` (app.py:222), the `/upload` handler.  `service` is the
generation service (see `analyze_medical_text_with_ai`), `secure_filename`
is werkzeug's sanitizer, `uuid_hex` the generated unique prefix and `now`
the `datetime.utcnow().isoformat()` timestamp.  When the sanitized name has
no dot, `rsplit('.', 1)[1]` raises `IndexError` before the file is saved and
the outer handler catches it (app.py:312-313). -/
def upload_file (env : Env) (req : UploadReq) (service : String → Except String String)
    (secure_filename : String → String) (uuid_hex now : String) : UploadOutcome :=
  match req.auth with
  | .error e => uploadErr 401 e false false
  | .ok user_id =>
    if req.filePresent = false then uploadErr 400 "No file provided" false false
    else if req.filename = "" then uploadErr 400 "No file selected" false false
    else if allowed_file req.filename = false then
      uploadErr 400 ("Invalid file type. Allowed types: " ++ String.intercalate ", " ALLOWED_EXTENSIONS)
        false false
    else
      let original_filename := secure_filename req.filename
      if hasChar original_filename '.' = false then
        uploadErr 500 "Upload failed: list index out of range" false false
      else
        let file_extension := lower (afterLastDot original_filename)
        let unique_filename := uuid_hex ++ "_" ++ original_filename
        match process_uploaded_file req.content service file_extension with
        | .error e => uploadErr 500 ("Processing failed: " ++ e) true false
        | .ok (extracted_text, ai_analysis) =>
          let blob_path :=
            match env.bucket with
            | none => ""
            | some _ => upload_to_firebase_storage env.bucket "uploads" unique_filename user_id
          let report_id :=
            match env.db with
            | none => ""
            | some _ =>
              match save_report_to_firestore env.db user_id
                  ⟨original_filename, blob_path, extracted_text, ai_analysis, now, user_id⟩ with
              | .ok rid => rid
              | .error _ => ""
          ⟨200, none, some original_filename, some extracted_text, some ai_analysis,
            some report_id, blob_path, true, false⟩

def unauthorized_reports_msg : String := "Unauthorized: You can only access your own reports"

/-- Observable outcome of the `/reports/<user_id>` handler; `queriedLimit`
is the limit value handed to the Firestore query when one is issued. -/
structure ReportsOutcome where
  status : Nat
  error : Option String
  user_id : Option String
  count : Option Nat
  reports : Option (List EnrichedReport)
  queriedLimit : Option Int

/-- Embedding of `get_user_reports` (app.py:316), the `/reports/<user_id>` handler.
`limitParam` models `request.args.get('limit', 50, type=int)`: `none` when
the query parameter is absent, `some none` when present but not an integer
(werkzeug then falls back to the default), `some (some n)` when it parses
as the integer `n`. -/
def get_user_reports (env : Env) (auth : Except String String) (user_id : String)
    (limitParam : Option (Option Int)) : ReportsOutcome :=
  match auth with
  | .error e => ⟨401, some e, none, none, none, none⟩
  | .ok authenticated_uid =>
    if authenticated_uid ≠ user_id then
      ⟨403, some unauthorized_reports_msg, none, none, none, none⟩
    else
      match env.db with
      | none => ⟨503, some "Database not available", none, none, none, none⟩
      | some d =>
        let limit : Int :=
          match limitParam with
          | none => 50
          | some none => 50
          | some (some n) => n
        let limit := min limit 100
        let reports := (d.listResult user_id limit).map (enrich_report env)
        ⟨200, none, some user_id, some reports.length, some reports, some limit⟩

/-- Observable outcome of the `/report/<report_id>` handler. -/
structure DetailOutcome where
  status : Nat
  error : Option String
  report : Option EnrichedReport

/-- Embedding of `get_report_detail` (app.py:374), the `/report/<report_id>` handler.
`userParam` models `request.args.get('user_id')` (`none` when absent; the
empty string is falsy and rejected the same way). -/
def get_report_detail (env : Env) (auth : Except String String) (report_id : String)
    (userParam : Option String) : DetailOutcome :=
  match auth with
  | .error e => ⟨401, some e, none⟩
  | .ok authenticated_uid =>
    match env.db with
    | none => ⟨503, some "Database not available", none⟩
    | some d =>
      match userParam with
      | none => ⟨400, some "user_id parameter is required", none⟩
      | some user_id =>
        if user_id = "" then ⟨400, some "user_id parameter is required", none⟩
        else if authenticated_uid ≠ user_id then
          ⟨403, some unauthorized_reports_msg, none⟩
        else
          match d.getResult user_id report_id with
          | none => ⟨404, some "Report not found", none⟩
          | some r => ⟨200, none, some (enrich_report env (report_id, r))⟩

/-! Theorems for the claims -/

theorem pdf_fold_eq (l : List (Nat × String)) (acc : List String) :
    l.foldl pdfStep acc = acc ++ (l.filter pdfKeep).map pdfSection := by
  induction l generalizing acc with
  | nil => simp
  | cons h t ih =>
    rw [List.foldl_cons, List.filter_cons]
    by_cases hc : pdfKeep h = true
    · rw [if_pos hc]
      show List.foldl pdfStep (if pdfKeep h then acc ++ [pdfSection h] else acc) t = _
      rw [if_pos hc, ih, List.map_cons, List.append_assoc, List.singleton_append]
    · rw [if_neg hc]
      show List.foldl pdfStep (if pdfKeep h then acc ++ [pdfSection h] else acc) t = _
      rw [if_neg hc, ih]

/-- Claim C1: for a PDF whose pages OCR to the texts `images`, the
extractor's output is exactly the pages with non-whitespace text, kept in
ascending page order (`enum` + order-preserving `filter`), each page's
stripped text preceded by the literal marker `--- Page i ---` (1-indexed,
on its own line), the sections joined by a blank line
(`String.intercalate "\n\n"`); whitespace-only pages are omitted entirely. -/
theorem extract_text_from_pdf_spec (images : List String) :
    extract_text_from_pdf (Except.ok images) =
      Except.ok (String.intercalate "\n\n"
        ((images.enum.filter (fun p => strip p.2 != "")).map
          (fun p => "--- Page " ++ toString (p.1 + 1) ++ " ---\n" ++ strip p.2))) := by
  show Except.ok (String.intercalate "\n\n" (pdf_page_sections images)) = _
  unfold pdf_page_sections
  rw [pdf_fold_eq, List.nil_append]
  rfl

/-- Claim C2: when extraction yields text that is empty or has fewer than 5
stripped characters, `process_uploaded_file` returns the pair of the empty
string and the fixed "no readable text" message as a success, for every
generation service — so the analysis function is never invoked. -/
theorem process_uploaded_file_no_text (f : UploadedFile) (file_extension : String)
    (service : String → Except String String) (t : String)
    (hx : extract_for_extension f file_extension = Except.ok t)
    (h : t = "" ∨ strLen (strip t) < 5) :
    process_uploaded_file f service file_extension = Except.ok ("", no_readable_text_msg) := by
  simp only [process_uploaded_file, hx]
  rw [if_pos h]

theorem process_uploaded_file_no_text_witness :
    extract_for_extension ⟨Except.ok ["   "], Except.ok ""⟩ "pdf" = Except.ok "" ∧
    (("" : String) = "" ∨ strLen (strip "") < 5) ∧
    process_uploaded_file ⟨Except.ok ["   "], Except.ok ""⟩
        (fun _ => Except.ok "ignored") "pdf"
      = Except.ok ("", no_readable_text_msg) :=
  ⟨by rfl, Or.inl rfl,
    process_uploaded_file_no_text ⟨Except.ok ["   "], Except.ok ""⟩ "pdf"
      (fun _ => Except.ok "ignored") "" (by rfl) (Or.inl rfl)⟩

/-- Claim C3: on input whose stripped length is under 10 characters,
`analyze_medical_text_with_ai` returns the fixed insufficient-text message
as a normal (`.ok`) result, for every generation service — so the external
generation service is never invoked. -/
theorem analyze_insufficient_text (service : String → Except String String)
    (text : String) (h : strLen (strip text) < 10) :
    analyze_medical_text_with_ai service text = Except.ok insufficient_text_msg := by
  unfold analyze_medical_text_with_ai
  rw [if_pos (Or.inr h)]

theorem analyze_insufficient_text_witness :
    strLen (strip "hi") < 10 ∧
    analyze_medical_text_with_ai (fun _ => Except.error "boom") "hi"
      = Except.ok insufficient_text_msg :=
  ⟨by decide, analyze_insufficient_text (fun _ => Except.error "boom") "hi" (by decide)⟩

/-- Claim C4: once the insufficient-text guard passes, a text longer than
15000 characters makes `analyze_medical_text_with_ai` invoke the generation
service on the prompt built from exactly the first 15000 characters followed
by the literal truncation marker, and a text of length at most 15000 is sent
unmodified (the result being the service outcome's normal handling in both
cases). -/
theorem analyze_truncation (service : String → Except String String) (text : String)
    (h : ¬ (text = "" ∨ strLen (strip text) < 10)) :
    (strLen text > 15000 →
      analyze_medical_text_with_ai service text
        = handle_ai_response
            (service (user_prompt (strTake text 15000 ++ "\n...[Text truncated due to length]")))) ∧
    (strLen text ≤ 15000 →
      analyze_medical_text_with_ai service text
        = handle_ai_response (service (user_prompt text))) := by
  constructor
  · intro hl
    unfold analyze_medical_text_with_ai
    rw [if_neg h]
    simp only [MAX_CHARS]
    rw [if_pos hl]
  · intro hl
    unfold analyze_medical_text_with_ai
    rw [if_neg h]
    simp only [MAX_CHARS]
    rw [if_neg (by omega)]

theorem analyze_truncation_witness :
    (¬ (("0123456789" : String) = "" ∨ strLen (strip "0123456789") < 10)) ∧
    ((strLen "0123456789" > 15000 →
      analyze_medical_text_with_ai (fun _ => Except.ok "A") "0123456789"
        = handle_ai_response
            ((fun _ => Except.ok "A")
              (user_prompt (strTake "0123456789" 15000 ++ "\n...[Text truncated due to length]")))) ∧
     (strLen "0123456789" ≤ 15000 →
      analyze_medical_text_with_ai (fun _ => Except.ok "A") "0123456789"
        = handle_ai_response ((fun _ => Except.ok "A") (user_prompt "0123456789")))) :=
  ⟨by decide, analyze_truncation (fun _ => Except.ok "A") "0123456789" (by decide)⟩

/-- Claim C5: when an upload request reaches the storage/persistence stage
(authentication, validation and processing all succeeded), the handler
responds 200 carrying the extracted text and analysis, an unavailable store
or a failed storage upload yields an empty `blob_path` (not an error), and
a failed Firestore save yields an empty `report_id` (not an error). -/
theorem upload_degradation (env : Env) (req : UploadReq)
    (service : String → Except String String) (secure_filename : String → String)
    (uuid_hex now uid t a : String)
    (hauth : req.auth = Except.ok uid)
    (hfile : req.filePresent = true)
    (hname : ¬ (req.filename = ""))
    (hallowed : allowed_file req.filename = true)
    (hdot : hasChar (secure_filename req.filename) '.' = true)
    (hproc : process_uploaded_file req.content service
        (lower (afterLastDot (secure_filename req.filename))) = Except.ok (t, a)) :
    (upload_file env req service secure_filename uuid_hex now).status = 200 ∧
    (upload_file env req service secure_filename uuid_hex now).extracted_text = some t ∧
    (upload_file env req service secure_filename uuid_hex now).ai_analysis = some a ∧
    (env.bucket = none →
      (upload_file env req service secure_filename uuid_hex now).blob_path = "") ∧
    (∀ st, env.bucket = some st → st.uploadOk = false →
      (upload_file env req service secure_filename uuid_hex now).blob_path = "") ∧
    (∀ d msg, env.db = some d → d.saveResult = Except.error msg →
      (upload_file env req service secure_filename uuid_hex now).report_id = some "") := by
  refine ⟨?_, ?_, ?_, ?_, ?_, ?_⟩
  · simp [upload_file, hauth, hfile, hname, hallowed, hdot, hproc]
  · simp [upload_file, hauth, hfile, hname, hallowed, hdot, hproc]
  · simp [upload_file, hauth, hfile, hname, hallowed, hdot, hproc]
  · intro hb
    simp [upload_file, hauth, hfile, hname, hallowed, hdot, hproc, hb]
  · intro st hb hup
    simp [upload_file, hauth, hfile, hname, hallowed, hdot, hproc, hb,
      upload_to_firebase_storage, hup]
  · intro d msg hd hsave
    simp [upload_file, hauth, hfile, hname, hallowed, hdot, hproc, hd,
      save_report_to_firestore, hsave]

theorem upload_degradation_witness :
    (Except.ok "u1" : Except String String) = Except.ok "u1" ∧
    true = true ∧
    ¬ (("scan.png" : String) = "") ∧
    allowed_file "scan.png" = true ∧
    hasChar (id "scan.png") '.' = true ∧
    process_uploaded_file ⟨Except.ok [], Except.ok "Patient blood report: all values normal."⟩
        (fun _ => Except.ok "Looks fine.") (lower (afterLastDot (id "scan.png")))
      = Except.ok ("Patient blood report: all values normal.", "Looks fine.") ∧
    ((upload_file ⟨some ⟨false, fun _ => ""⟩, some ⟨Except.error "firestore down", fun _ _ => [], fun _ _ => none⟩⟩
        ⟨Except.ok "u1", true, "scan.png", ⟨Except.ok [], Except.ok "Patient blood report: all values normal."⟩⟩
        (fun _ => Except.ok "Looks fine.") id "U" "2026-01-01T00:00:00").status = 200 ∧
     (upload_file ⟨some ⟨false, fun _ => ""⟩, some ⟨Except.error "firestore down", fun _ _ => [], fun _ _ => none⟩⟩
        ⟨Except.ok "u1", true, "scan.png", ⟨Except.ok [], Except.ok "Patient blood report: all values normal."⟩⟩
        (fun _ => Except.ok "Looks fine.") id "U" "2026-01-01T00:00:00").extracted_text
       = some "Patient blood report: all values normal." ∧
     (upload_file ⟨some ⟨false, fun _ => ""⟩, some ⟨Except.error "firestore down", fun _ _ => [], fun _ _ => none⟩⟩
        ⟨Except.ok "u1", true, "scan.png", ⟨Except.ok [], Except.ok "Patient blood report: all values normal."⟩⟩
        (fun _ => Except.ok "Looks fine.") id "U" "2026-01-01T00:00:00").ai_analysis
       = some "Looks fine." ∧
     ((⟨some ⟨false, fun _ => ""⟩, some ⟨Except.error "firestore down", fun _ _ => [], fun _ _ => none⟩⟩ : Env).bucket = none →
      (upload_file ⟨some ⟨false, fun _ => ""⟩, some ⟨Except.error "firestore down", fun _ _ => [], fun _ _ => none⟩⟩
        ⟨Except.ok "u1", true, "scan.png", ⟨Except.ok [], Except.ok "Patient blood report: all values normal."⟩⟩
        (fun _ => Except.ok "Looks fine.") id "U" "2026-01-01T00:00:00").blob_path = "") ∧
     (∀ st, (⟨some ⟨false, fun _ => ""⟩, some ⟨Except.error "firestore down", fun _ _ => [], fun _ _ => none⟩⟩ : Env).bucket = some st →
        st.uploadOk = false →
      (upload_file ⟨some ⟨false, fun _ => ""⟩, some ⟨Except.error "firestore down", fun _ _ => [], fun _ _ => none⟩⟩
        ⟨Except.ok "u1", true, "scan.png", ⟨Except.ok [], Except.ok "Patient blood report: all values normal."⟩⟩
        (fun _ => Except.ok "Looks fine.") id "U" "2026-01-01T00:00:00").blob_path = "") ∧
     (∀ d msg, (⟨some ⟨false, fun _ => ""⟩, some ⟨Except.error "firestore down", fun _ _ => [], fun _ _ => none⟩⟩ : Env).db = some d →
        d.saveResult = Except.error msg →
      (upload_file ⟨some ⟨false, fun _ => ""⟩, some ⟨Except.error "firestore down", fun _ _ => [], fun _ _ => none⟩⟩
        ⟨Except.ok "u1", true, "scan.png", ⟨Except.ok [], Except.ok "Patient blood report: all values normal."⟩⟩
        (fun _ => Except.ok "Looks fine.") id "U" "2026-01-01T00:00:00").report_id = some "")) :=
  ⟨rfl, rfl, by decide, by rfl, by rfl, by rfl,
    upload_degradation
      ⟨some ⟨false, fun _ => ""⟩, some ⟨Except.error "firestore down", fun _ _ => [], fun _ _ => none⟩⟩
      ⟨Except.ok "u1", true, "scan.png", ⟨Except.ok [], Except.ok "Patient blood report: all values normal."⟩⟩
      (fun _ => Except.ok "Looks fine.") id "U" "2026-01-01T00:00:00" "u1"
      "Patient blood report: all values normal." "Looks fine."
      rfl rfl (by decide) (by rfl) (by rfl) (by rfl)⟩

/-- Claim C6: when the generation service raises an error with message `e`
(and the text passes the insufficient-text guard, so the service is
reached), `analyze_medical_text_with_ai` classifies the lowered message by
substring: quota/rate signals yield the fixed "temporarily unavailable"
string, otherwise invalid+api signals yield the fixed "configuration error"
string, otherwise token/length signals yield the fixed "document too large"
string — each a normal `.ok` result — and a message matching none of these
is re-raised as a "Failed to analyze" error carrying the original message. -/
theorem analyze_error_classification (service : String → Except String String)
    (text e : String)
    (hguard : ¬ (text = "" ∨ strLen (strip text) < 10))
    (hsvc : ∀ s, service s = Except.error e) :
    ((hasSub (lower e) "quota" = true ∨ hasSub (lower e) "rate" = true) →
      analyze_medical_text_with_ai service text = Except.ok quota_msg) ∧
    (hasSub (lower e) "quota" = false → hasSub (lower e) "rate" = false →
     hasSub (lower e) "invalid" = true → hasSub (lower e) "api" = true →
      analyze_medical_text_with_ai service text = Except.ok api_config_msg) ∧
    (hasSub (lower e) "quota" = false → hasSub (lower e) "rate" = false →
     ¬ (hasSub (lower e) "invalid" = true ∧ hasSub (lower e) "api" = true) →
     (hasSub (lower e) "token" = true ∨ hasSub (lower e) "length" = true) →
      analyze_medical_text_with_ai service text = Except.ok too_large_msg) ∧
    (hasSub (lower e) "quota" = false → hasSub (lower e) "rate" = false →
     ¬ (hasSub (lower e) "invalid" = true ∧ hasSub (lower e) "api" = true) →
     hasSub (lower e) "token" = false → hasSub (lower e) "length" = false →
      analyze_medical_text_with_ai service text
        = Except.error ("Failed to analyze medical text with AI: " ++ e)) := by
  have hbase : analyze_medical_text_with_ai service text = classify_ai_error e := by
    unfold analyze_medical_text_with_ai
    rw [if_neg hguard]
    simp only [hsvc]
    rfl
  rw [hbase]
  unfold classify_ai_error
  refine ⟨?_, ?_, ?_, ?_⟩
  · intro hq
    rcases hq with hq | hq <;> simp [hq]
  · intro h1 h2 h3 h4
    simp [h1, h2, h3, h4]
  · intro h1 h2 h3 h4
    have h3' : ¬ (hasSub (lower e) "invalid" && hasSub (lower e) "api") = true := by
      intro hb
      exact h3 ⟨(Bool.and_eq_true _ _ ▸ hb).1, (Bool.and_eq_true _ _ ▸ hb).2⟩
    rcases h4 with h4 | h4 <;> simp [h1, h2, h3', h4]
  · intro h1 h2 h3 h4 h5
    have h3' : ¬ (hasSub (lower e) "invalid" && hasSub (lower e) "api") = true := by
      intro hb
      exact h3 ⟨(Bool.and_eq_true _ _ ▸ hb).1, (Bool.and_eq_true _ _ ▸ hb).2⟩
    simp [h1, h2, h3', h4, h5]

theorem analyze_error_classification_witness :
    (¬ (("0123456789" : String) = "" ∨ strLen (strip "0123456789") < 10)) ∧
    (∀ s : String,
      (fun _ => (Except.error "Rate limit exceeded" : Except String String)) s
        = Except.error "Rate limit exceeded") ∧
    ((hasSub (lower "Rate limit exceeded") "quota" = true ∨
      hasSub (lower "Rate limit exceeded") "rate" = true) →
      analyze_medical_text_with_ai (fun _ => Except.error "Rate limit exceeded") "0123456789"
        = Except.ok quota_msg) ∧
    (hasSub (lower "Rate limit exceeded") "rate" = true) ∧
    (analyze_medical_text_with_ai (fun _ => Except.error "Rate limit exceeded") "0123456789"
      = Except.ok quota_msg) :=
  have hth := analyze_error_classification (fun _ => Except.error "Rate limit exceeded")
    "0123456789" "Rate limit exceeded" (by decide) (fun _ => rfl)
  ⟨by decide, fun _ => rfl, hth.1, by decide, hth.1 (Or.inr (by decide))⟩

/-- Claim C7 fails as stated: for the `/report/<report_id>` endpoint the
store-availability check precedes the ownership check, so an authenticated
request whose credential subject (`userB`) differs from the queried
`user_id` (`userA`) is answered 503, not 403, when the document store is
unavailable. -/
theorem cross_user_access_counterexample :
    (get_report_detail ⟨none, none⟩ (Except.ok "userB") "r1" (some "userA")).status = 503 ∧
    ¬ (get_report_detail ⟨none, none⟩ (Except.ok "userB") "r1" (some "userA")).status = 403 := by
  constructor
  · rfl
  · decide

/-- Claim C7 (amended): for every authenticated request listing reports of
user `A`, and for every authenticated request fetching a report detail with
query `user_id = A` when the document store is available, a credential whose
subject `B` differs from `A` yields 403 with the fixed error body — the
whole response is a constant independent of the environment, so nothing
about `A`'s records (or `A`'s existence) is revealed. -/
theorem cross_user_access_denied (env : Env) (A B report_id : String)
    (limitParam : Option (Option Int)) (hne : B ≠ A) (hA : ¬ (A = "")) :
    get_user_reports env (Except.ok B) A limitParam
      = ⟨403, some unauthorized_reports_msg, none, none, none, none⟩ ∧
    (∀ d, env.db = some d →
      get_report_detail env (Except.ok B) report_id (some A)
        = ⟨403, some unauthorized_reports_msg, none⟩) := by
  constructor
  · simp only [get_user_reports]
    rw [if_pos hne]
  · intro d hd
    simp only [get_report_detail, hd]
    rw [if_neg hA, if_pos hne]

theorem cross_user_access_denied_witness :
    (("bob" : String) ≠ "alice") ∧
    (¬ (("alice" : String) = "")) ∧
    get_user_reports ⟨none, some ⟨Except.ok "id1", fun _ _ => [], fun _ _ => none⟩⟩
        (Except.ok "bob") "alice" (some (some 10))
      = ⟨403, some unauthorized_reports_msg, none, none, none, none⟩ ∧
    (∀ d, (⟨none, some ⟨Except.ok "id1", fun _ _ => [], fun _ _ => none⟩⟩ : Env).db = some d →
      get_report_detail ⟨none, some ⟨Except.ok "id1", fun _ _ => [], fun _ _ => none⟩⟩
          (Except.ok "bob") "r1" (some "alice")
        = ⟨403, some unauthorized_reports_msg, none⟩) :=
  have hth := cross_user_access_denied
    ⟨none, some ⟨Except.ok "id1", fun _ _ => [], fun _ _ => none⟩⟩
    "alice" "bob" "r1" (some (some 10)) (by decide) (by decide)
  ⟨by decide, by decide, hth.1, hth.2⟩

/-- Claim C8: on every execution of the `/upload` handler the temporary
file does not survive the handler (`tempExists = false` on every exit path:
processing failure, success, and degraded success), and on the paths
rejected before the file is saved — auth failure (401), missing file, empty
filename, disallowed extension (400) — no temporary file is ever created. -/
theorem upload_temp_cleanup (env : Env) (req : UploadReq)
    (service : String → Except String String) (secure_filename : String → String)
    (uuid_hex now : String) :
    (upload_file env req service secure_filename uuid_hex now).tempExists = false ∧
    ((upload_file env req service secure_filename uuid_hex now).status = 400 ∨
     (upload_file env req service secure_filename uuid_hex now).status = 401 →
      (upload_file env req service secure_filename uuid_hex now).tempCreated = false) := by
  cases hauth : req.auth with
  | error e => simp [upload_file, hauth, uploadErr]
  | ok uid =>
    by_cases h1 : req.filePresent = false
    · simp [upload_file, hauth, h1, uploadErr]
    · by_cases h2 : req.filename = ""
      · simp [upload_file, hauth, h1, h2, uploadErr]
      · by_cases h3 : allowed_file req.filename = false
        · simp [upload_file, hauth, h1, h2, h3, uploadErr]
        · by_cases h4 : hasChar (secure_filename req.filename) '.' = false
          · simp [upload_file, hauth, h1, h2, h3, h4, uploadErr]
          · cases hp : process_uploaded_file req.content service
                (lower (afterLastDot (secure_filename req.filename))) with
            | error e => simp [upload_file, hauth, h1, h2, h3, h4, hp, uploadErr]
            | ok r =>
              obtain ⟨t, a⟩ := r
              simp [upload_file, hauth, h1, h2, h3, h4, hp, uploadErr]

theorem upload_temp_cleanup_witness :
    (upload_file ⟨none, none⟩
        ⟨Except.ok "u1", true, "notes.txt", ⟨Except.ok [], Except.ok ""⟩⟩
        (fun _ => Except.ok "") id "U" "T").tempExists = false ∧
    ((upload_file ⟨none, none⟩
        ⟨Except.ok "u1", true, "notes.txt", ⟨Except.ok [], Except.ok ""⟩⟩
        (fun _ => Except.ok "") id "U" "T").status = 400 ∨
     (upload_file ⟨none, none⟩
        ⟨Except.ok "u1", true, "notes.txt", ⟨Except.ok [], Except.ok ""⟩⟩
        (fun _ => Except.ok "") id "U" "T").status = 401 →
      (upload_file ⟨none, none⟩
        ⟨Except.ok "u1", true, "notes.txt", ⟨Except.ok [], Except.ok ""⟩⟩
        (fun _ => Except.ok "") id "U" "T").tempCreated = false) :=
  upload_temp_cleanup ⟨none, none⟩
    ⟨Except.ok "u1", true, "notes.txt", ⟨Except.ok [], Except.ok ""⟩⟩
    (fun _ => Except.ok "") id "U" "T"

/-- Claim C9: in `/reports/<user_id>` (authenticated as the owner, store
available) the `limit` query parameter is only capped from above: an integer
`n` is queried as `min n 100` — in particular a zero or negative `n` is
passed to the store query unchanged — while a present but non-integer value
and an absent value both fall back to the default 50; the returned reports
are exactly the store's answer for that limit. -/
theorem reports_limit_handling (env : Env) (d : DB) (A : String)
    (limitParam : Option (Option Int)) (hdb : env.db = some d) :
    (∀ n : Int, limitParam = some (some n) →
      (get_user_reports env (Except.ok A) A limitParam).queriedLimit = some (min n 100) ∧
      (get_user_reports env (Except.ok A) A limitParam).reports
        = some ((d.listResult A (min n 100)).map (enrich_report env))) ∧
    (∀ n : Int, limitParam = some (some n) → n ≤ 0 →
      (get_user_reports env (Except.ok A) A limitParam).queriedLimit = some n) ∧
    (limitParam = some none →
      (get_user_reports env (Except.ok A) A limitParam).queriedLimit = some 50) ∧
    (limitParam = none →
      (get_user_reports env (Except.ok A) A limitParam).queriedLimit = some 50) := by
  have hAA : ¬ (A ≠ A) := fun h => h rfl
  refine ⟨?_, ?_, ?_, ?_⟩
  · intro n hn
    subst hn
    constructor <;> simp [get_user_reports, hAA, hdb]
  · intro n hn hle
    subst hn
    have hmin : min n (100 : Int) = n := min_eq_left (by omega)
    simp [get_user_reports, hAA, hdb, hmin]
  · intro hn
    subst hn
    simp [get_user_reports, hAA, hdb]
  · intro hn
    subst hn
    simp [get_user_reports, hAA, hdb]

theorem reports_limit_handling_witness :
    ((⟨none, some ⟨Except.ok "id1", fun _ _ => [], fun _ _ => none⟩⟩ : Env).db
      = some ⟨Except.ok "id1", fun _ _ => [], fun _ _ => none⟩) ∧
    ((∀ n : Int, (some (some (-7)) : Option (Option Int)) = some (some n) →
      (get_user_reports ⟨none, some ⟨Except.ok "id1", fun _ _ => [], fun _ _ => none⟩⟩
          (Except.ok "alice") "alice" (some (some (-7)))).queriedLimit = some (min n 100) ∧
      (get_user_reports ⟨none, some ⟨Except.ok "id1", fun _ _ => [], fun _ _ => none⟩⟩
          (Except.ok "alice") "alice" (some (some (-7)))).reports
        = some (((⟨Except.ok "id1", fun _ _ => [], fun _ _ => none⟩ : DB).listResult "alice" (min n 100)).map
            (enrich_report ⟨none, some ⟨Except.ok "id1", fun _ _ => [], fun _ _ => none⟩⟩))) ∧
     (∀ n : Int, (some (some (-7)) : Option (Option Int)) = some (some n) → n ≤ 0 →
      (get_user_reports ⟨none, some ⟨Except.ok "id1", fun _ _ => [], fun _ _ => none⟩⟩
          (Except.ok "alice") "alice" (some (some (-7)))).queriedLimit = some n) ∧
     ((some (some (-7)) : Option (Option Int)) = some none →
      (get_user_reports ⟨none, some ⟨Except.ok "id1", fun _ _ => [], fun _ _ => none⟩⟩
          (Except.ok "alice") "alice" (some (some (-7)))).queriedLimit = some 50) ∧
     ((some (some (-7)) : Option (Option Int)) = none →
      (get_user_reports ⟨none, some ⟨Except.ok "id1", fun _ _ => [], fun _ _ => none⟩⟩
          (Except.ok "alice") "alice" (some (some (-7)))).queriedLimit = some 50)) :=
  ⟨rfl, reports_limit_handling
    ⟨none, some ⟨Except.ok "id1", fun _ _ => [], fun _ _ => none⟩⟩
    ⟨Except.ok "id1", fun _ _ => [], fun _ _ => none⟩ "alice" (some (some (-7))) rfl⟩

/-- Claim C10: in `/report/<report_id>` the store-availability check comes
before the `user_id` query-parameter validation: with a valid credential and
the store unavailable the response is 503 (with the fixed body) whatever the
`user_id` parameter is — so 503 is a reachable outcome — and a 400 or 403
response is only possible when the store is available. -/
theorem report_detail_store_precedence (env : Env) (auth : Except String String)
    (report_id : String) (userParam : Option String) :
    (∀ uid, auth = Except.ok uid → env.db = none →
      (get_report_detail env auth report_id userParam).status = 503 ∧
      (get_report_detail env auth report_id userParam).error = some "Database not available") ∧
    (((get_report_detail env auth report_id userParam).status = 400 ∨
      (get_report_detail env auth report_id userParam).status = 403) →
      env.db ≠ none) := by
  constructor
  · intro uid hauth hdb
    subst hauth
    simp [get_report_detail, hdb]
  · intro hst hdb
    cases hauth : auth with
    | error e =>
      rw [hauth] at hst
      simp [get_report_detail] at hst
    | ok uid =>
      rw [hauth] at hst
      simp [get_report_detail, hdb] at hst

theorem report_detail_store_precedence_witness :
    (∀ uid, (Except.ok "u1" : Except String String) = Except.ok uid →
      (⟨none, none⟩ : Env).db = none →
      (get_report_detail ⟨none, none⟩ (Except.ok "u1") "r1" (some "u2")).status = 503 ∧
      (get_report_detail ⟨none, none⟩ (Except.ok "u1") "r1" (some "u2")).error
        = some "Database not available") ∧
    (((get_report_detail ⟨none, none⟩ (Except.ok "u1") "r1" (some "u2")).status = 400 ∨
      (get_report_detail ⟨none, none⟩ (Except.ok "u1") "r1" (some "u2")).status = 403) →
      (⟨none, none⟩ : Env).db ≠ none) :=
  report_detail_store_precedence ⟨none, none⟩ (Except.ok "u1") "r1" (some "u2")

theorem dropWhile_ws_replicate (n : Nat) :
    (List.replicate n ' ').dropWhile Char.isWhitespace = [] := by
  induction n with
  | zero => rfl
  | succ k ih =>
    rw [List.replicate_succ, List.dropWhile_cons, if_pos (by decide)]
    exact ih

/-- A text of 15001 space characters: longer than 15000 characters, but
whitespace-only. -/
def spaces15001 : String := ⟨List.replicate 15001 ' '⟩

/-- Claim C4 fails as stated: a text of 15001 spaces exceeds 15,000
characters, yet `analyze_medical_text_with_ai` answers it with the fixed
insufficient-text message and never invokes the generation service — its
result differs from what handling the service's response to the truncated
prompt would give (here a service returning "SERVED"). -/
theorem analyze_truncation_counterexample :
    strLen spaces15001 > 15000 ∧
    analyze_medical_text_with_ai (fun _ => Except.ok "SERVED") spaces15001
      ≠ handle_ai_response ((fun _ => (Except.ok "SERVED" : Except String String))
          (user_prompt (strTake spaces15001 15000 ++ "\n...[Text truncated due to length]"))) := by
  have hstrip : strip spaces15001 = "" := by
    unfold spaces15001 strip
    rw [dropWhile_ws_replicate]
    rfl
  have hg : analyze_medical_text_with_ai (fun _ => Except.ok "SERVED") spaces15001
      = Except.ok insufficient_text_msg := by
    unfold analyze_medical_text_with_ai
    rw [if_pos (Or.inr (by rw [hstrip]; decide))]
  have hr : handle_ai_response ((fun _ => (Except.ok "SERVED" : Except String String))
      (user_prompt (strTake spaces15001 15000 ++ "\n...[Text truncated due to length]")))
      = Except.ok "SERVED" := rfl
  refine ⟨?_, ?_⟩
  · show (List.replicate 15001 ' ').length > 15000
    rw [List.length_replicate]
    omega
  · rw [hg, hr]
    intro hEq
    exact absurd (Except.ok.inj hEq) (by decide)
